import Mathlib

/-!
Verification of the embargo-approval workflow and the Dropbox addon
configuration views of a research-data web platform.

The Dropbox configuration helpers (serialize_folder, get_folders,
serialize_urls, serialize_settings, dropbox_config_put,
dropbox_get_share_emails) are embedded from
website/addons/dropbox/views/config.py.

The Embargo / registration model (Embargo, Node.embargo_registration,
approve_embargo, disapprove_embargo and the embargo view endpoints) is not
part of the sources available here, only its test suite is; those parts are
modelled from the specification, as noted in their doc comments.
-/

deriving instance DecidableEq for Except

/-- Errors raised by the model layer: schema validation, node state,
permissions, and the two invalid-token errors of the embargo workflow. -/
inductive ModelError where
  | validationValueError
  | nodeStateError
  | permissionsError
  | invalidEmbargoApprovalToken
  | invalidEmbargoDisapprovalToken
deriving DecidableEq, Repr

/-- Modelled from the spec: one entry of an embargo approval_state, a
mapping from user identifier to approval_token, disapproval_token and
has_approved. -/
structure ApprovalEntry where
  approval_token : String
  disapproval_token : String
  has_approved : Bool
deriving DecidableEq, Repr

/-- Look up the approval_state entry of a user identifier. -/
def lookupEntry (uid : String) : List (String × ApprovalEntry) → Option ApprovalEntry
  | [] => none
  | (k, v) :: rest => if k = uid then some v else lookupEntry uid rest

/-- Set the has_approved flag of the given user identifier. -/
def setApproved (uid : String) : List (String × ApprovalEntry) → List (String × ApprovalEntry)
  | [] => []
  | (k, v) :: rest =>
    if k = uid then (k, { v with has_approved := true }) :: rest
    else (k, v) :: setApproved uid rest

/-- Number of entries whose has_approved flag is set. -/
def numApprovals (st : List (String × ApprovalEntry)) : Nat :=
  (st.filter (fun p => p.2.has_approved)).length

/-- Whether every entry of an approval_state has approved. -/
def allApproved (st : List (String × ApprovalEntry)) : Bool :=
  st.all (fun p => p.2.has_approved)

def pendingState : String := "pending"

def activeState : String := "active"

def cancelledState : String := "cancelled"

def completedState : String := "completed"

/-- Modelled from the spec: the four embargo states
PENDING / ACTIVE / CANCELLED / COMPLETED. -/
def embargoStates : List String :=
  [pendingState, activeState, cancelledState, completedState]

/-- Modelled from the spec: the Embargo record.  It tracks approval_state, a
mapping from user identifier to approval_token / disapproval_token /
has_approved, the embargo end date, and whether the embargo was initiated
for an existing registration. -/
structure Embargo where
  state : String
  approval_state : List (String × ApprovalEntry)
  end_date : Nat
  for_existing_registration : Bool
deriving DecidableEq, Repr

/-- Modelled from the spec: assigning the state field and saving runs the
schema validator, which rejects any string outside the four states with
ValidationValueError. -/
def Embargo.set_state (e : Embargo) (s : String) : Except ModelError Embargo :=
  if s ∈ embargoStates then Except.ok { e with state := s }
  else Except.error ModelError.validationValueError

/-- An embargo is pending when its state is PENDING. -/
def Embargo.pending_embargo (e : Embargo) : Bool := e.state = pendingState

/-- Modelled from the spec: Embargo.approve_embargo.  A caller outside the
approval_state mapping gets PermissionsError; a token differing from the
caller's approval_token gets InvalidEmbargoApprovalToken; otherwise the
caller's has_approved flag is set and, once every admin listed in
approval_state has approved, the embargo becomes ACTIVE. -/
def Embargo.approve_embargo (e : Embargo) (uid token : String) : Except ModelError Embargo :=
  match lookupEntry uid e.approval_state with
  | none => Except.error ModelError.permissionsError
  | some entry =>
    if entry.approval_token ≠ token then
      Except.error ModelError.invalidEmbargoApprovalToken
    else
      let st := setApproved uid e.approval_state
      if allApproved st then Except.ok { e with approval_state := st, state := activeState }
      else Except.ok { e with approval_state := st }

/-- Modelled from the spec: Embargo.disapprove_embargo.  A caller outside
the approval_state mapping gets PermissionsError; a token differing from the
caller's disapproval_token gets InvalidEmbargoDisapprovalToken; otherwise a
single disapproval moves the embargo to CANCELLED. -/
def Embargo.disapprove_embargo (e : Embargo) (uid token : String) : Except ModelError Embargo :=
  match lookupEntry uid e.approval_state with
  | none => Except.error ModelError.permissionsError
  | some entry =>
    if entry.disapproval_token ≠ token then
      Except.error ModelError.invalidEmbargoDisapprovalToken
    else Except.ok { e with state := cancelledState }

/-- Modelled from the spec: a descendant node of a registration.  Descendant
nodes reference the registration's embargo transitively; own_embargo is none
exactly when the node has no embargo of its own and so shares the
registration's. -/
structure NodeData where
  nid : String
  own_embargo : Option Embargo
deriving DecidableEq, Repr

/-- Modelled from the spec: an admin contributor of a registration, with the
flag saying whether the account is registered (confirmed). -/
structure AdminInfo where
  uid : String
  is_registered : Bool
deriving DecidableEq, Repr

/-- Modelled from the spec: the registration Node owning an embargo, with
its admin contributors and its descendant nodes. -/
structure Registration where
  nid : String
  is_registration : Bool
  is_public : Bool
  is_deleted : Bool
  admins : List AdminInfo
  embargo : Option Embargo
  descendant_nodes : List NodeData
deriving DecidableEq, Repr

/-- Whether a user identifier has admin permission on the registration. -/
def Registration.is_admin (r : Registration) (uid : String) : Bool :=
  r.admins.any (fun a => a.uid = uid)

/-- Modelled from the spec: the approval token emailed to an admin. -/
def approvalTokenFor (uid : String) : String := "approval-token-" ++ uid

/-- Modelled from the spec: the disapproval token emailed to an admin. -/
def disapprovalTokenFor (uid : String) : String := "disapproval-token-" ++ uid

/-- Modelled from the spec: the initial approval_state of a fresh embargo;
every registered admin gets an entry with fresh tokens and has_approved
false, unregistered admins get none. -/
def initApprovalState (admins : List AdminInfo) : List (String × ApprovalEntry) :=
  (admins.filter (fun a => a.is_registered)).map
    (fun a => (a.uid, { approval_token := approvalTokenFor a.uid,
                        disapproval_token := disapprovalTokenFor a.uid,
                        has_approved := false }))

/-- Modelled from the spec: the longest allowed embargo duration (in days);
an end date beyond it is rejected as too far in the future. -/
def maxEmbargoDuration : Nat := 1461

/-- Modelled from the spec: Node.embargo_registration.  Only a registration
node may be embargoed (NodeStateError otherwise), only by an admin
(PermissionsError otherwise), and the end date must be strictly in the
future but not beyond the longest allowed duration (ValidationValueError
otherwise).  On success a PENDING embargo is attached and the registration
is made private. -/
def Registration.embargo_registration (r : Registration) (uid : String)
    (now end_date : Nat) (for_existing : Bool) : Except ModelError Registration :=
  if ¬ r.is_registration then Except.error ModelError.nodeStateError
  else if ¬ r.is_admin uid then Except.error ModelError.permissionsError
  else if end_date ≤ now then Except.error ModelError.validationValueError
  else if now + maxEmbargoDuration < end_date then Except.error ModelError.validationValueError
  else Except.ok { r with
    embargo := some { state := pendingState,
                      approval_state := initApprovalState r.admins,
                      end_date := end_date,
                      for_existing_registration := for_existing },
    is_public := false }

/-- A registration is pending embargo when it has an embargo in state
PENDING. -/
def Registration.pending_embargo (r : Registration) : Bool :=
  match r.embargo with
  | some e => e.pending_embargo
  | none => false

/-- The embargo end date of a registration: set exactly when its embargo is
ACTIVE. -/
def Registration.embargo_end_date (r : Registration) : Option Nat :=
  match r.embargo with
  | some e => if e.state = activeState then some e.end_date else none
  | none => none

/-- A registration is pending registration when it is pending embargo and
the embargo was not initiated for an existing registration. -/
def Registration.pending_registration (r : Registration) : Bool :=
  match r.embargo with
  | some e => e.pending_embargo && ! e.for_existing_registration
  | none => false

/-- Approve the registration's embargo: delegates to
Embargo.approve_embargo and stores the updated embargo. -/
def Registration.approve (r : Registration) (uid token : String) :
    Except ModelError Registration :=
  match r.embargo with
  | none => Except.error ModelError.nodeStateError
  | some e =>
    match e.approve_embargo uid token with
    | Except.error err => Except.error err
    | Except.ok e2 => Except.ok { r with embargo := some e2 }

/-- Disapprove the registration's embargo: delegates to
Embargo.disapprove_embargo; cancelling an embargo that was not initiated for
an existing registration also deletes the registration. -/
def Registration.disapprove (r : Registration) (uid token : String) :
    Except ModelError Registration :=
  match r.embargo with
  | none => Except.error ModelError.nodeStateError
  | some e =>
    match e.disapprove_embargo uid token with
    | Except.error err => Except.error err
    | Except.ok e2 =>
      Except.ok { r with
        embargo := some e2,
        is_deleted := if e2.for_existing_registration then r.is_deleted else true }

/-- The embargo a descendant node references: its own when it has one,
otherwise (transitively) the registration's. -/
def nodeEffEmbargo (r : Registration) (n : NodeData) : Option Embargo :=
  match n.own_embargo with
  | some e => some e
  | none => r.embargo

/-- Whether a descendant node is pending embargo. -/
def node_pending_embargo (r : Registration) (n : NodeData) : Bool :=
  match nodeEffEmbargo r n with
  | some e => e.pending_embargo
  | none => false

/-- The embargo end date visible on a descendant node. -/
def node_embargo_end_date (r : Registration) (n : NodeData) : Option Nat :=
  match nodeEffEmbargo r n with
  | some e => if e.state = activeState then some e.end_date else none
  | none => none

/-- The state of the registration's embargo, when it has one. -/
def embargoStateOf (r : Registration) : Option String :=
  match r.embargo with
  | some e => some e.state
  | none => none

/-- Modelled from the spec: the node_registration_embargo_approve endpoint.
A caller without admin permission is rejected with 403; a registration with
no embargo, or any model error (invalid token, wrong admin's token), gives
400; success redirects with 302. -/
def node_registration_embargo_approve (r : Registration) (uid token : String) :
    Nat × Registration :=
  if ¬ r.is_admin uid then (403, r)
  else
    match r.embargo with
    | none => (400, r)
    | some _ =>
      match r.approve uid token with
      | Except.error _ => (400, r)
      | Except.ok r2 => (302, r2)

/-- Modelled from the spec: the node_registration_embargo_disapprove
endpoint, with the same status-code policy as the approve endpoint. -/
def node_registration_embargo_disapprove (r : Registration) (uid token : String) :
    Nat × Registration :=
  if ¬ r.is_admin uid then (403, r)
  else
    match r.embargo with
    | none => (400, r)
    | some _ =>
      match r.disapprove uid token with
      | Except.error _ => (400, r)
      | Except.ok r2 => (302, r2)

def emptyPath : String := ""

def slashPath : String := "/"

def fullDropboxName : String := "/ (Full Dropbox)"

def dropboxLabel : String := "Dropbox"

/-- Folder metadata as returned by the Dropbox client: its path and whether
it is a directory. -/
structure FolderMetadata where
  path : String
  is_dir : Bool
deriving DecidableEq, Repr

/-- A serialized folder: display name and path. -/
structure Folder where
  name : String
  path : String
deriving DecidableEq, Repr

/-- serialize_folder from config.py: the display name is the full-Dropbox
label for the root path (empty or slash) and the Dropbox label followed by
the path otherwise; the path is passed through. -/
def serialize_folder (metadata : FolderMetadata) : Folder :=
  let name :=
    if metadata.path = emptyPath ∨ metadata.path = slashPath then fullDropboxName
    else dropboxLabel ++ metadata.path
  { name := name, path := metadata.path }

/-- The listing the Dropbox client returns for the root: its contents. -/
structure DropboxClientMetadata where
  contents : List FolderMetadata
deriving DecidableEq, Repr

/-- The root entry that get_folders always puts first. -/
def rootFolder : Folder := { name := fullDropboxName, path := emptyPath }

/-- get_folders from config.py: the root entry followed by one serialized
entry per directory of the listing. -/
def get_folders (client : DropboxClientMetadata) : List Folder :=
  rootFolder :: (client.contents.filter (fun each => each.is_dir)).map serialize_folder

/-- A platform user as the Dropbox views see one: primary key, username,
full name, and whether the user has the Dropbox user addon. -/
structure DbxUser where
  primary_key : String
  username : String
  fullname : String
  has_dropbox_addon : Bool
deriving DecidableEq, Repr

/-- The Dropbox user-settings record: owned by one user. -/
structure DbxUserSettings where
  owner : DbxUser
deriving DecidableEq, Repr

/-- The project node a Dropbox node-settings record belongs to: its
contributors and the URLs its url_for helpers produce for each endpoint. -/
structure DbxNode where
  contributors : List DbxUser
  config_url : String
  deauthorize_url : String
  auth_url : String
  import_auth_url : String
  files_url : String
  folders_url : String
  emails_url : String
deriving DecidableEq, Repr

/-- The Dropbox node-settings record: owning node, optional linked
user settings, whether the node has auth, and the linked folder path. -/
structure DbxNodeSettings where
  owner : DbxNode
  user_settings : Option DbxUserSettings
  has_auth : Bool
  folder : Option String
deriving DecidableEq, Repr

/-- Modelled from the spec: utils.get_share_folder_uri (the dropbox utils
module is not in the sources); the Dropbox share link of a folder. -/
def get_share_folder_uri (folder : Option String) : String :=
  match folder with
  | some s => "https://www.dropbox.com/home" ++ s
  | none => "https://www.dropbox.com/home"

/-- Modelled from the spec: web_url_for profile_view_id (framework helper
not in the sources); the profile URL of a user identifier. -/
def profile_url (uid : String) : String := "/profile/" ++ uid

/-- The urls dictionary built by serialize_urls; the owner entry is added
later by serialize_settings, so it is optional here. -/
structure DropboxUrls where
  config : String
  deauthorize : String
  auth : String
  importAuth : String
  files : String
  folders : String
  share : Option String
  emails : String
  owner : Option String
deriving DecidableEq, Repr

/-- serialize_urls from config.py: endpoint URLs of the owning node; the
share URL is set exactly when a folder is linked and it is neither empty
nor the root slash. -/
def serialize_urls (node_settings : DbxNodeSettings) : DropboxUrls :=
  let node := node_settings.owner
  let share_url : Option String :=
    match node_settings.folder with
    | some f =>
      if f ≠ emptyPath ∧ f ≠ slashPath then some (get_share_folder_uri (some f))
      else none
    | none => none
  { config := node.config_url,
    deauthorize := node.deauthorize_url,
    auth := node.auth_url,
    importAuth := node.import_auth_url,
    files := node.files_url,
    folders := node.folders_url,
    share := share_url,
    emails := node.emails_url,
    owner := none }

/-- The folder entry of serialized settings; both fields may be None. -/
structure FolderEntry where
  name : Option String
  path : Option String
deriving DecidableEq, Repr

/-- The dictionary serialize_settings returns; folder is none when the key
is absent. -/
structure SettingsResult where
  nodeHasAuth : Bool
  userIsOwner : Bool
  userHasAuth : Bool
  urls : DropboxUrls
  ownerName : Option String
  folder : Option FolderEntry
deriving DecidableEq, Repr

/-- serialize_settings from config.py.  When the node has auth the owner
profile URL, owner name and folder entry are added; reading the owner of
absent user settings while the node claims auth is the error case. -/
def serialize_settings (node_settings : DbxNodeSettings) (current_user : DbxUser) :
    Except Unit SettingsResult :=
  let user_settings := node_settings.user_settings
  let user_is_owner :=
    match user_settings with
    | some us => decide (us.owner.primary_key = current_user.primary_key)
    | none => false
  let base : SettingsResult :=
    { nodeHasAuth := node_settings.has_auth,
      userIsOwner := user_is_owner,
      userHasAuth := current_user.has_dropbox_addon,
      urls := serialize_urls node_settings,
      ownerName := none,
      folder := none }
  if node_settings.has_auth then
    match user_settings with
    | none => Except.error ()
    | some us =>
      let folderEntry : FolderEntry :=
        match node_settings.folder with
        | none => { name := none, path := none }
        | some path => { name := some (dropboxLabel ++ path), path := some path }
      Except.ok { base with
        urls := { base.urls with owner := some (profile_url us.owner.primary_key) },
        ownerName := some us.owner.fullname,
        folder := some folderEntry }
  else Except.ok base

/-- Modelled from the spec: DropboxNodeSettings.set_folder (the dropbox
model module is not in the sources); stores the selected folder path. -/
def DbxNodeSettings.set_folder (ns : DbxNodeSettings) (path : String) : DbxNodeSettings :=
  { ns with folder := some path }

/-- dropbox_config_put from config.py: a caller who does not own the user
addon gets 403 Forbidden; otherwise the selected path is stored and the
folder entry and refreshed URLs are returned. -/
def dropbox_config_put (node_addon : DbxNodeSettings) (user_addon : DbxUserSettings)
    (auth_user : DbxUser) (selected_path : String) :
    Except Nat (Folder × DropboxUrls × DbxNodeSettings) :=
  if user_addon.owner ≠ auth_user then Except.error 403
  else
    let updated := node_addon.set_folder selected_path
    Except.ok ({ name := dropboxLabel ++ selected_path, path := selected_path },
               serialize_urls updated, updated)

/-- The result of dropbox_get_share_emails: contributor usernames and the
share URL. -/
structure ShareEmailsResult where
  emails : List String
  url : String
deriving DecidableEq, Repr

/-- dropbox_get_share_emails from config.py: 400 Bad Request when the node
settings have no user settings, 403 Forbidden when the caller did not
authorize the addon, otherwise the usernames of every contributor except
the caller. -/
def dropbox_get_share_emails (auth_user : DbxUser) (node_addon : DbxNodeSettings) :
    Except Nat ShareEmailsResult :=
  match node_addon.user_settings with
  | none => Except.error 400
  | some us =>
    if us.owner ≠ auth_user then Except.error 403
    else
      Except.ok
        { emails := (node_addon.owner.contributors.filter
            (fun contrib => contrib ≠ auth_user)).map (fun contrib => contrib.username),
          url := get_share_folder_uri node_addon.folder }

/-- A sample embargo used by witnesses. -/
def sampleEmbargo : Embargo :=
  { state := pendingState, approval_state := [], end_date := 10,
    for_existing_registration := false }

def bogusState : String := "bogus"

/-- C1: the embargo state field only ever holds one of the four states
PENDING, ACTIVE, CANCELLED, COMPLETED; assigning any other string and
saving raises ValidationValueError, and every successfully saved embargo
has its state among the four. -/
theorem C1_embargo_state_validator (e : Embargo) (s : String) :
    (s ∉ embargoStates → e.set_state s = Except.error ModelError.validationValueError) ∧
    (∀ e2, e.set_state s = Except.ok e2 → e2.state ∈ embargoStates) := by
  constructor
  · intro h
    simp [Embargo.set_state, h]
  · intro e2 h2
    unfold Embargo.set_state at h2
    by_cases hs : s ∈ embargoStates
    · simp only [if_pos hs, Except.ok.injEq] at h2
      subst h2
      exact hs
    · simp [if_neg hs] at h2

/-- Witness for C1 at a concrete embargo and a concrete invalid state. -/
theorem C1_embargo_state_validator_witness :
    sampleEmbargo.set_state bogusState = Except.error ModelError.validationValueError :=
  (C1_embargo_state_validator sampleEmbargo bogusState).1 (by decide)

/-- Setting the has_approved flag of a user whose entry was not yet
approved raises the approval count by exactly one. -/
theorem numApprovals_setApproved (uid : String)
    (st : List (String × ApprovalEntry)) (entry : ApprovalEntry)
    (hl : lookupEntry uid st = some entry) (hf : entry.has_approved = false) :
    numApprovals (setApproved uid st) = numApprovals st + 1 := by
  induction st with
  | nil => simp [lookupEntry] at hl
  | cons p rest ih =>
    obtain ⟨k, v⟩ := p
    by_cases hk : k = uid
    · simp only [lookupEntry, if_pos hk, Option.some.injEq] at hl
      subst hl
      simp [setApproved, if_pos hk, numApprovals, List.filter_cons, hf]
    · simp only [lookupEntry, if_neg hk, Option.some.injEq] at hl
      have ihr := ih hl
      simp only [setApproved, if_neg hk, numApprovals, List.filter_cons] at ihr ⊢
      cases hv : v.has_approved <;> simp [hv] at ihr ⊢ <;> omega

/-- C2: a pending embargo becomes active, giving the registration an
embargo_end_date and ending its pending state, exactly when every admin
listed in approval_state has approved with their own valid approval token;
short of that it stays pending with no end date, and each fresh approval
raises the has_approved count by exactly one. -/
theorem C2_all_approvals_activate (r : Registration) (e : Embargo)
    (uid token : String) (entry : ApprovalEntry)
    (hre : r.embargo = some e)
    (hp : e.state = pendingState)
    (hl : lookupEntry uid e.approval_state = some entry)
    (ht : token = entry.approval_token) :
    ∃ e2 r2,
      e.approve_embargo uid token = Except.ok e2 ∧
      r.approve uid token = Except.ok r2 ∧
      r2.embargo = some e2 ∧
      e2.approval_state = setApproved uid e.approval_state ∧
      (e2.state = activeState ↔ allApproved e2.approval_state = true) ∧
      (allApproved e2.approval_state = true →
        r2.embargo_end_date = some e.end_date ∧ r2.pending_embargo = false) ∧
      (allApproved e2.approval_state = false →
        r2.embargo_end_date = none ∧ r2.pending_embargo = true) ∧
      (entry.has_approved = false →
        numApprovals e2.approval_state = numApprovals e.approval_state + 1) := by
  subst ht
  have happ : e.approve_embargo uid entry.approval_token =
      (if allApproved (setApproved uid e.approval_state) then
        Except.ok { e with approval_state := setApproved uid e.approval_state,
                           state := activeState }
      else Except.ok { e with approval_state := setApproved uid e.approval_state }) := by
    unfold Embargo.approve_embargo
    rw [hl]
    simp
  by_cases hall : allApproved (setApproved uid e.approval_state) = true
  · refine ⟨{ e with approval_state := setApproved uid e.approval_state, state := activeState }, { r with embargo := some { e with approval_state := setApproved uid e.approval_state, state := activeState } }, ?_, ?_, rfl, rfl, ?_, ?_, ?_, ?_⟩
    · rw [happ, if_pos hall]
    · simp only [Registration.approve, hre]
      rw [happ, if_pos hall]
    · simpa using hall
    · intro _
      constructor
      · simp [Registration.embargo_end_date]
      · simp [Registration.pending_embargo, Embargo.pending_embargo, activeState, pendingState]
    · intro hcon
      rw [hall] at hcon
      cases hcon
    · intro hfresh
      exact numApprovals_setApproved uid e.approval_state entry hl hfresh
  · rw [Bool.not_eq_true] at hall
    refine ⟨{ e with approval_state := setApproved uid e.approval_state }, { r with embargo := some { e with approval_state := setApproved uid e.approval_state } }, ?_, ?_, rfl, rfl, ?_, ?_, ?_, ?_⟩
    · rw [happ, if_neg (by simp [hall])]
    · simp only [Registration.approve, hre]
      rw [happ, if_neg (by simp [hall])]
    · constructor
      · intro hst
        rw [hp] at hst
        exact absurd hst (by decide)
      · intro hcon
        rw [hall] at hcon
        cases hcon
    · intro hcon
      rw [hall] at hcon
      cases hcon
    · intro _
      constructor
      · simp [Registration.embargo_end_date, hp, activeState, pendingState]
      · simp [Registration.pending_embargo, Embargo.pending_embargo, hp]
    · intro hfresh
      exact numApprovals_setApproved uid e.approval_state entry hl hfresh

def uidA : String := "user-a"

def uidB : String := "user-b"

/-- The approval_state entry of the first sample admin. -/
def entryA : ApprovalEntry :=
  { approval_token := approvalTokenFor uidA,
    disapproval_token := disapprovalTokenFor uidA,
    has_approved := false }

/-- A pending sample embargo with a single admin. -/
def pendingEmbargoOne : Embargo :=
  { state := pendingState, approval_state := [(uidA, entryA)], end_date := 10,
    for_existing_registration := false }

/-- A sample registration with one admin and a pending embargo. -/
def pendingRegOne : Registration :=
  { nid := "reg-1", is_registration := true, is_public := false,
    is_deleted := false, admins := [{ uid := uidA, is_registered := true }],
    embargo := some pendingEmbargoOne,
    descendant_nodes := [{ nid := "child-1", own_embargo := none },
                         { nid := "child-2", own_embargo := none }] }

/-- Witness for C2: on the one-admin sample registration the single
approval with the admin's own token activates the embargo. -/
theorem C2_all_approvals_activate_witness :
    ∃ e2 r2,
      pendingEmbargoOne.approve_embargo uidA (approvalTokenFor uidA) = Except.ok e2 ∧
      pendingRegOne.approve uidA (approvalTokenFor uidA) = Except.ok r2 ∧
      r2.embargo = some e2 ∧
      e2.approval_state = setApproved uidA pendingEmbargoOne.approval_state ∧
      (e2.state = activeState ↔ allApproved e2.approval_state = true) ∧
      (allApproved e2.approval_state = true →
        r2.embargo_end_date = some pendingEmbargoOne.end_date ∧ r2.pending_embargo = false) ∧
      (allApproved e2.approval_state = false →
        r2.embargo_end_date = none ∧ r2.pending_embargo = true) ∧
      (entryA.has_approved = false →
        numApprovals e2.approval_state = numApprovals pendingEmbargoOne.approval_state + 1) :=
  C2_all_approvals_activate pendingRegOne pendingEmbargoOne uidA
    (approvalTokenFor uidA) entryA (by decide) (by decide) (by decide) (by decide)

def bogusToken : String := "not-a-real-token"

/-- C3: approving or disapproving with a token that is not the caller's
valid token raises InvalidEmbargoApprovalToken (respectively
InvalidEmbargoDisapprovalToken), and the registration remains pending
embargo with no embargo_end_date. -/
theorem C3_invalid_token_rejected (r : Registration) (e : Embargo)
    (uid token : String) (entry : ApprovalEntry)
    (hre : r.embargo = some e)
    (hp : e.state = pendingState)
    (hl : lookupEntry uid e.approval_state = some entry) :
    (token ≠ entry.approval_token →
      r.approve uid token = Except.error ModelError.invalidEmbargoApprovalToken) ∧
    (token ≠ entry.disapproval_token →
      r.disapprove uid token = Except.error ModelError.invalidEmbargoDisapprovalToken) ∧
    r.pending_embargo = true ∧ r.embargo_end_date = none := by
  refine ⟨?_, ?_, ?_, ?_⟩
  · intro hne
    have ha : e.approve_embargo uid token =
        Except.error ModelError.invalidEmbargoApprovalToken := by
      unfold Embargo.approve_embargo
      rw [hl]
      have hx : entry.approval_token ≠ token := fun h => hne h.symm
      simp [hx]
    simp only [Registration.approve, hre, ha]
  · intro hne
    have hd : e.disapprove_embargo uid token =
        Except.error ModelError.invalidEmbargoDisapprovalToken := by
      unfold Embargo.disapprove_embargo
      rw [hl]
      have hx : entry.disapproval_token ≠ token := fun h => hne h.symm
      simp [hx]
    simp only [Registration.disapprove, hre, hd]
  · simp [Registration.pending_embargo, hre, Embargo.pending_embargo, hp]
  · simp [Registration.embargo_end_date, hre, hp, pendingState, activeState]

/-- Witness for C3 at the one-admin sample registration and a concrete
invalid token. -/
theorem C3_invalid_token_rejected_witness :
    pendingRegOne.approve uidA bogusToken
        = Except.error ModelError.invalidEmbargoApprovalToken ∧
    pendingRegOne.disapprove uidA bogusToken
        = Except.error ModelError.invalidEmbargoDisapprovalToken ∧
    pendingRegOne.pending_embargo = true ∧
    pendingRegOne.embargo_end_date = none := by
  have h := C3_invalid_token_rejected pendingRegOne pendingEmbargoOne uidA
    bogusToken entryA (by decide) (by decide) (by decide)
  exact ⟨h.1 (by decide), h.2.1 (by decide), h.2.2.1, h.2.2.2⟩

/-- C4: a user who is not listed in the embargo approval_state cannot
approve or disapprove it even with an arbitrary (possibly valid) token:
both calls raise PermissionsError and the registration stays pending. -/
theorem C4_non_admin_rejected (r : Registration) (e : Embargo)
    (uid token : String)
    (hre : r.embargo = some e)
    (hp : e.state = pendingState)
    (hl : lookupEntry uid e.approval_state = none) :
    r.approve uid token = Except.error ModelError.permissionsError ∧
    r.disapprove uid token = Except.error ModelError.permissionsError ∧
    r.pending_embargo = true := by
  have ha : e.approve_embargo uid token = Except.error ModelError.permissionsError := by
    unfold Embargo.approve_embargo
    rw [hl]
  have hd : e.disapprove_embargo uid token = Except.error ModelError.permissionsError := by
    unfold Embargo.disapprove_embargo
    rw [hl]
  refine ⟨?_, ?_, ?_⟩
  · simp only [Registration.approve, hre, ha]
  · simp only [Registration.disapprove, hre, hd]
  · simp [Registration.pending_embargo, hre, Embargo.pending_embargo, hp]

/-- Witness for C4: a non-admin presenting the admin's own valid approval
token is still rejected with PermissionsError. -/
theorem C4_non_admin_rejected_witness :
    pendingRegOne.approve uidB (approvalTokenFor uidA)
        = Except.error ModelError.permissionsError ∧
    pendingRegOne.disapprove uidB (approvalTokenFor uidA)
        = Except.error ModelError.permissionsError ∧
    pendingRegOne.pending_embargo = true :=
  C4_non_admin_rejected pendingRegOne pendingEmbargoOne uidB
    (approvalTokenFor uidA) (by decide) (by decide) (by decide)

/-- C5: descendant nodes of an embargoed registration track the
registration's embargo transitively.  While the embargo is pending every
descendant is pending embargo; once an approval activates the embargo
(the registration gains an embargo_end_date) every descendant has an
embargo_end_date; after a disapproval the embargo is CANCELLED and every
descendant is neither pending embargo nor carries an embargo_end_date. -/
theorem C5_descendants_track_embargo (r : Registration) (e : Embargo)
    (hre : r.embargo = some e)
    (hp : e.state = pendingState)
    (hd : ∀ n ∈ r.descendant_nodes, n.own_embargo = none) :
    (∀ n ∈ r.descendant_nodes, node_pending_embargo r n = true) ∧
    (∀ uid token r2, r.approve uid token = Except.ok r2 →
      Option.isSome r2.embargo_end_date = true →
      ∀ n ∈ r2.descendant_nodes, Option.isSome (node_embargo_end_date r2 n) = true) ∧
    (∀ uid token r2, r.disapprove uid token = Except.ok r2 →
      embargoStateOf r2 = some cancelledState ∧
      ∀ n ∈ r2.descendant_nodes,
        node_pending_embargo r2 n = false ∧ node_embargo_end_date r2 n = none) := by
  refine ⟨?_, ?_, ?_⟩
  · intro n hn
    simp [node_pending_embargo, nodeEffEmbargo, hd n hn, hre, Embargo.pending_embargo, hp]
  · intro uid token r2 hok hsome n hn
    simp only [Registration.approve, hre] at hok
    cases happ : e.approve_embargo uid token with
    | error err => simp [happ] at hok
    | ok e2 =>
      simp only [happ, Except.ok.injEq] at hok
      subst hok
      have hact : e2.state = activeState := by
        simp only [Registration.embargo_end_date] at hsome
        by_cases hs : e2.state = activeState
        · exact hs
        · rw [if_neg hs] at hsome
          simp at hsome
      simp [node_embargo_end_date, nodeEffEmbargo, hd n hn, hact]
  · intro uid token r2 hok
    simp only [Registration.disapprove, hre] at hok
    cases hdis : e.disapprove_embargo uid token with
    | error err => simp [hdis] at hok
    | ok e2 =>
      simp only [hdis, Except.ok.injEq] at hok
      subst hok
      have hcanc : e2.state = cancelledState := by
        unfold Embargo.disapprove_embargo at hdis
        cases hlk : lookupEntry uid e.approval_state with
        | none => rw [hlk] at hdis; simp at hdis
        | some entry =>
          rw [hlk] at hdis
          by_cases htk : entry.disapproval_token ≠ token
          · simp [htk] at hdis
          · simp only [if_neg htk, Except.ok.injEq] at hdis
            rw [← hdis]
      refine ⟨?_, ?_⟩
      · simp [embargoStateOf, hcanc]
      · intro n hn
        constructor
        · simp [node_pending_embargo, nodeEffEmbargo, hd n hn, Embargo.pending_embargo,
                hcanc, cancelledState, pendingState]
        · simp [node_embargo_end_date, nodeEffEmbargo, hd n hn, hcanc,
                cancelledState, activeState]

/-- Witness for C5 at the one-admin sample registration with two
descendant nodes. -/
theorem C5_descendants_track_embargo_witness :
    (∀ n ∈ pendingRegOne.descendant_nodes, node_pending_embargo pendingRegOne n = true) ∧
    (∀ uid token r2, pendingRegOne.approve uid token = Except.ok r2 →
      Option.isSome r2.embargo_end_date = true →
      ∀ n ∈ r2.descendant_nodes, Option.isSome (node_embargo_end_date r2 n) = true) ∧
    (∀ uid token r2, pendingRegOne.disapprove uid token = Except.ok r2 →
      embargoStateOf r2 = some cancelledState ∧
      ∀ n ∈ r2.descendant_nodes,
        node_pending_embargo r2 n = false ∧ node_embargo_end_date r2 n = none) :=
  C5_descendants_track_embargo pendingRegOne pendingEmbargoOne
    (by decide) (by decide) (by decide)

/-- Approving an embargo never changes the registration's visibility. -/
theorem approve_preserves_is_public (r : Registration) (uid tok : String)
    (r2 : Registration) (h : r.approve uid tok = Except.ok r2) :
    r2.is_public = r.is_public := by
  unfold Registration.approve at h
  cases hre : r.embargo with
  | none => simp [hre] at h
  | some e =>
    simp only [hre] at h
    cases ha : e.approve_embargo uid tok with
    | error err => simp [ha] at h
    | ok e2 =>
      simp only [ha, Except.ok.injEq] at h
      subst h
      rfl

/-- Disapproving an embargo never changes the registration's
visibility. -/
theorem disapprove_preserves_is_public (r : Registration) (uid tok : String)
    (r2 : Registration) (h : r.disapprove uid tok = Except.ok r2) :
    r2.is_public = r.is_public := by
  unfold Registration.disapprove at h
  cases hre : r.embargo with
  | none => simp [hre] at h
  | some e =>
    simp only [hre] at h
    cases ha : e.disapprove_embargo uid tok with
    | error err => simp [ha] at h
    | ok e2 =>
      simp only [ha, Except.ok.injEq] at h
      subst h
      rfl

/-- A sample node that is not a registration. -/
def nonRegNode : Registration :=
  { nid := "node-1", is_registration := false, is_public := false,
    is_deleted := false, admins := [{ uid := uidA, is_registered := true }],
    embargo := none, descendant_nodes := [] }

/-- A sample registration without an embargo. -/
def regNoEmbargo : Registration :=
  { nonRegNode with nid := "reg-2", is_registration := true }

/-- A sample public registration without an embargo. -/
def regPublic : Registration :=
  { regNoEmbargo with nid := "reg-3", is_public := true }

/-- C6: an embargo can only be initiated on a registration node — on a
non-registration node embargo_registration raises NodeStateError and the
node stays not pending embargo — and an end date that is not strictly in
the future or is too far in the future raises ValidationValueError. -/
theorem C6_initiation_guards (r : Registration) (uid : String)
    (now end_d : Nat) (fe : Bool) :
    (r.is_registration = false →
      r.embargo_registration uid now end_d fe = Except.error ModelError.nodeStateError ∧
      (r.embargo = none → r.pending_embargo = false)) ∧
    (r.is_registration = true → r.is_admin uid = true → end_d ≤ now →
      r.embargo_registration uid now end_d fe
        = Except.error ModelError.validationValueError) ∧
    (r.is_registration = true → r.is_admin uid = true →
      now + maxEmbargoDuration < end_d →
      r.embargo_registration uid now end_d fe
        = Except.error ModelError.validationValueError) := by
  refine ⟨?_, ?_, ?_⟩
  · intro hreg
    constructor
    · simp [Registration.embargo_registration, hreg]
    · intro he
      simp [Registration.pending_embargo, he]
  · intro hreg hadm hle
    simp [Registration.embargo_registration, hreg, hadm, hle]
  · intro hreg hadm hgt
    have hnle : ¬ (end_d ≤ now) := by omega
    simp [Registration.embargo_registration, hreg, hadm, hnle, hgt]

/-- Witness for C6: a non-registration node, an end date equal to now, and
an end date beyond the longest allowed duration, all at concrete inputs. -/
theorem C6_initiation_guards_witness :
    nonRegNode.embargo_registration uidA 0 10 false
        = Except.error ModelError.nodeStateError ∧
    nonRegNode.pending_embargo = false ∧
    regNoEmbargo.embargo_registration uidA 5 5 false
        = Except.error ModelError.validationValueError ∧
    regNoEmbargo.embargo_registration uidA 0 99999 false
        = Except.error ModelError.validationValueError := by
  have h1 := (C6_initiation_guards nonRegNode uidA 0 10 false).1 (by decide)
  have h2 := (C6_initiation_guards regNoEmbargo uidA 5 5 false).2.1
    (by decide) (by decide) (by decide)
  have h3 := (C6_initiation_guards regNoEmbargo uidA 0 99999 false).2.2
    (by decide) (by decide) (by decide)
  exact ⟨h1.1, h1.2 (by decide), h2, h3⟩

/-- C7: initiating an embargo makes the registration private and pending
embargo, and neither approving nor disapproving ever makes it public, so a
registration in the embargo workflow is never public while pending. -/
theorem C7_embargo_delays_public_release (r : Registration) (uid : String)
    (now end_d : Nat) (fe : Bool) (r1 : Registration)
    (hok : r.embargo_registration uid now end_d fe = Except.ok r1) :
    r1.is_public = false ∧ r1.pending_embargo = true ∧
    (∀ uid2 tok r2, r1.approve uid2 tok = Except.ok r2 → r2.is_public = false) ∧
    (∀ uid2 tok r2, r1.disapprove uid2 tok = Except.ok r2 → r2.is_public = false) := by
  unfold Registration.embargo_registration at hok
  split_ifs at hok
  all_goals cases hok
  refine ⟨rfl, ?_, ?_, ?_⟩
  · simp [Registration.pending_embargo, Embargo.pending_embargo]
  · intro uid2 tok r2 h2
    rw [approve_preserves_is_public _ _ _ _ h2]
  · intro uid2 tok r2 h2
    rw [disapprove_preserves_is_public _ _ _ _ h2]

/-- The registration obtained by embargoing the public sample
registration. -/
def embargoedRegPublic : Registration :=
  { regPublic with
    is_public := false
    embargo := some { state := pendingState, approval_state := initApprovalState regPublic.admins, end_date := 10, for_existing_registration := false } }

/-- Witness for C7: embargoing the public sample registration yields a
private pending registration that stays private. -/
theorem C7_embargo_delays_public_release_witness :
    embargoedRegPublic.is_public = false ∧
    embargoedRegPublic.pending_embargo = true ∧
    (∀ uid2 tok r2, embargoedRegPublic.approve uid2 tok = Except.ok r2 →
      r2.is_public = false) ∧
    (∀ uid2 tok r2, embargoedRegPublic.disapprove uid2 tok = Except.ok r2 →
      r2.is_public = false) :=
  C7_embargo_delays_public_release regPublic uidA 0 10 false
    embargoedRegPublic (by decide)

/-- C8: errors at the HTTP interface surface as 400 and 403 only: the
embargo approve/disapprove endpoints give 403 to a non-admin and 400 for a
missing embargo or an invalid/wrong-user token, dropbox_config_put gives
403 to a caller who does not own the user addon, and
dropbox_get_share_emails gives 400 without user settings and 403 to a
non-owner. -/
theorem C8_http_status_codes :
    (∀ (r : Registration) (uid token : String), r.is_admin uid = false →
      (node_registration_embargo_approve r uid token).1 = 403 ∧
      (node_registration_embargo_disapprove r uid token).1 = 403) ∧
    (∀ (r : Registration) (uid token : String), r.is_admin uid = true →
      r.embargo = none →
      (node_registration_embargo_approve r uid token).1 = 400 ∧
      (node_registration_embargo_disapprove r uid token).1 = 400) ∧
    (∀ (r : Registration) (e : Embargo) (uid token : String)
        (entry : ApprovalEntry), r.is_admin uid = true → r.embargo = some e →
      lookupEntry uid e.approval_state = some entry →
      (token ≠ entry.approval_token →
        (node_registration_embargo_approve r uid token).1 = 400) ∧
      (token ≠ entry.disapproval_token →
        (node_registration_embargo_disapprove r uid token).1 = 400)) ∧
    (∀ (na : DbxNodeSettings) (ua : DbxUserSettings) (au : DbxUser) (p : String),
      ua.owner ≠ au → dropbox_config_put na ua au p = Except.error 403) ∧
    (∀ (au : DbxUser) (na : DbxNodeSettings), na.user_settings = none →
      dropbox_get_share_emails au na = Except.error 400) ∧
    (∀ (au : DbxUser) (na : DbxNodeSettings) (us : DbxUserSettings),
      na.user_settings = some us → us.owner ≠ au →
      dropbox_get_share_emails au na = Except.error 403) := by
  refine ⟨?_, ?_, ?_, ?_, ?_, ?_⟩
  · intro r uid token h
    constructor
    · simp [node_registration_embargo_approve, h]
    · simp [node_registration_embargo_disapprove, h]
  · intro r uid token hadm hemb
    constructor
    · simp [node_registration_embargo_approve, hadm, hemb]
    · simp [node_registration_embargo_disapprove, hadm, hemb]
  · intro r e uid token entry hadm hre hl
    constructor
    · intro hne
      have ha : e.approve_embargo uid token =
          Except.error ModelError.invalidEmbargoApprovalToken := by
        unfold Embargo.approve_embargo
        rw [hl]
        have hx : entry.approval_token ≠ token := fun h => hne h.symm
        simp [hx]
      simp [node_registration_embargo_approve, hadm, hre, Registration.approve, ha]
    · intro hne
      have hd : e.disapprove_embargo uid token =
          Except.error ModelError.invalidEmbargoDisapprovalToken := by
        unfold Embargo.disapprove_embargo
        rw [hl]
        have hx : entry.disapproval_token ≠ token := fun h => hne h.symm
        simp [hx]
      simp [node_registration_embargo_disapprove, hadm, hre, Registration.disapprove, hd]
  · intro na ua au p h
    simp [dropbox_config_put, h]
  · intro au na h
    simp [dropbox_get_share_emails, h]
  · intro au na us h1 h2
    simp [dropbox_get_share_emails, h1, h2]

def ownerKey : String := "owner-key"

def ownerUsername : String := "owner-name"

def ownerFullname : String := "Owner Person"

def otherKey : String := "other-key"

def otherUsername : String := "other-name"

def otherFullname : String := "Other Person"

def cfgUrl : String := "/api/dropbox/config"

def deauthUrl : String := "/api/dropbox/deauthorize"

def authUrl : String := "/api/dropbox/oauth"

def importUrl : String := "/api/dropbox/import-auth"

def filesUrl : String := "/project/files"

def foldersUrl : String := "/api/dropbox/folders"

def emailsUrl : String := "/api/dropbox/share-emails"

/-- The user who authorized the Dropbox addon in the samples. -/
def userOwner : DbxUser :=
  { primary_key := ownerKey, username := ownerUsername,
    fullname := ownerFullname, has_dropbox_addon := true }

/-- Another contributor, not the addon owner. -/
def userOther : DbxUser :=
  { primary_key := otherKey, username := otherUsername,
    fullname := otherFullname, has_dropbox_addon := false }

/-- The sample project node of the Dropbox fixtures. -/
def sampleNode : DbxNode :=
  { contributors := [userOwner, userOther], config_url := cfgUrl,
    deauthorize_url := deauthUrl, auth_url := authUrl,
    import_auth_url := importUrl, files_url := filesUrl,
    folders_url := foldersUrl, emails_url := emailsUrl }

/-- The owner's Dropbox user settings. -/
def sampleUserSettings : DbxUserSettings := { owner := userOwner }

def researchPath : String := "/Research"

/-- Sample node settings with auth and a linked folder. -/
def sampleNodeSettings : DbxNodeSettings :=
  { owner := sampleNode, user_settings := some sampleUserSettings,
    has_auth := true, folder := some researchPath }

/-- Sample node settings without any user settings or auth. -/
def noAuthNodeSettings : DbxNodeSettings :=
  { sampleNodeSettings with user_settings := none, has_auth := false }

/-- Witness for C8 at concrete registrations, users and node settings. -/
theorem C8_http_status_codes_witness :
    (node_registration_embargo_approve pendingRegOne uidB bogusToken).1 = 403 ∧
    (node_registration_embargo_disapprove pendingRegOne uidB bogusToken).1 = 403 ∧
    (node_registration_embargo_approve regNoEmbargo uidA bogusToken).1 = 400 ∧
    (node_registration_embargo_disapprove regNoEmbargo uidA bogusToken).1 = 400 ∧
    (node_registration_embargo_approve pendingRegOne uidA bogusToken).1 = 400 ∧
    (node_registration_embargo_disapprove pendingRegOne uidA bogusToken).1 = 400 ∧
    dropbox_config_put sampleNodeSettings sampleUserSettings userOther researchPath
        = Except.error 403 ∧
    dropbox_get_share_emails userOwner noAuthNodeSettings = Except.error 400 ∧
    dropbox_get_share_emails userOther sampleNodeSettings = Except.error 403 := by
  have h := C8_http_status_codes
  have h1 := h.1 pendingRegOne uidB bogusToken (by decide)
  have h2 := h.2.1 regNoEmbargo uidA bogusToken (by decide) (by decide)
  have h3 := h.2.2.1 pendingRegOne pendingEmbargoOne uidA bogusToken entryA
    (by decide) (by decide) (by decide)
  have h4 := h.2.2.2.1 sampleNodeSettings sampleUserSettings userOther
    researchPath (by decide)
  have h5 := h.2.2.2.2.1 userOwner noAuthNodeSettings (by decide)
  have h6 := h.2.2.2.2.2 userOther sampleNodeSettings sampleUserSettings
    (by decide) (by decide)
  exact ⟨h1.1, h1.2, h2.1, h2.2, h3.1 (by decide), h3.2 (by decide), h4, h5, h6⟩

/-- C9: serialize_folder keeps the input path and names the folder with
the full-Dropbox label exactly for the root path and with the Dropbox
label followed by the path otherwise; get_folders puts the root entry
first, followed in order by exactly one serialized entry per directory of
the listing and none for non-directories. -/
theorem C9_folder_serialization (m : FolderMetadata) (client : DropboxClientMetadata) :
    (serialize_folder m).path = m.path ∧
    (m.path = emptyPath ∨ m.path = slashPath →
      (serialize_folder m).name = fullDropboxName) ∧
    (¬ (m.path = emptyPath ∨ m.path = slashPath) →
      (serialize_folder m).name = dropboxLabel ++ m.path) ∧
    (get_folders client).head? = some rootFolder ∧
    (get_folders client).length
      = (client.contents.filter (fun each => each.is_dir)).length + 1 ∧
    (∀ i, i < (client.contents.filter (fun each => each.is_dir)).length →
      (get_folders client).get? (i + 1)
        = ((client.contents.filter (fun each => each.is_dir)).get? i).map
            serialize_folder) := by
  refine ⟨rfl, ?_, ?_, rfl, ?_, ?_⟩
  · intro h
    simp [serialize_folder, h]
  · intro h
    simp [serialize_folder, h]
  · simp [get_folders]
  · intro i _
    simp [get_folders, List.getElem?_map]

def notesPath : String := "/notes.txt"

/-- A directory entry of the sample listing. -/
def folderDir1 : FolderMetadata := { path := researchPath, is_dir := true }

/-- A non-directory entry of the sample listing. -/
def folderFile1 : FolderMetadata := { path := notesPath, is_dir := false }

/-- The sample root listing: one file and one directory. -/
def sampleClientMetadata : DropboxClientMetadata :=
  { contents := [folderFile1, folderDir1] }

/-- Witness for C9 at a concrete directory entry and a concrete listing
with one file and one directory. -/
theorem C9_folder_serialization_witness :
    (serialize_folder folderDir1).path = folderDir1.path ∧
    (serialize_folder folderDir1).name = dropboxLabel ++ folderDir1.path ∧
    (get_folders sampleClientMetadata).head? = some rootFolder ∧
    (get_folders sampleClientMetadata).length = 2 ∧
    (get_folders sampleClientMetadata).get? 1 = some (serialize_folder folderDir1) := by
  have h := C9_folder_serialization folderDir1 sampleClientMetadata
  refine ⟨h.1, h.2.2.1 (by decide), h.2.2.2.1, ?_, ?_⟩
  · rw [h.2.2.2.2.1]
    decide
  · rw [h.2.2.2.2.2 0 (by decide)]
    decide

/-- C10: serialize_settings includes a folder entry exactly when the node
settings have auth, the entry being none/none when no folder path is
stored; serialize_urls sets the share url to None exactly when no folder is
linked or it is empty or the root slash, and to the share-folder URI
otherwise; and a successful dropbox_get_share_emails returns the usernames
of all contributors except the requesting user. -/
theorem C10_settings_serialization :
    (∀ (ns : DbxNodeSettings) (u : DbxUser) (res : SettingsResult),
      serialize_settings ns u = Except.ok res → res.folder.isSome = ns.has_auth) ∧
    (∀ (ns : DbxNodeSettings) (u : DbxUser) (res : SettingsResult),
      serialize_settings ns u = Except.ok res → ns.has_auth = true →
      ns.folder = none → res.folder = some { name := none, path := none }) ∧
    (∀ ns : DbxNodeSettings,
      ((serialize_urls ns).share = none ↔
        (ns.folder = none ∨ ns.folder = some emptyPath ∨ ns.folder = some slashPath))) ∧
    (∀ (ns : DbxNodeSettings) (f : String), ns.folder = some f →
      f ≠ emptyPath → f ≠ slashPath →
      (serialize_urls ns).share = some (get_share_folder_uri (some f))) ∧
    (∀ (au : DbxUser) (na : DbxNodeSettings) (us : DbxUserSettings),
      na.user_settings = some us → us.owner = au →
      dropbox_get_share_emails au na = Except.ok
        { emails := (na.owner.contributors.filter
            (fun contrib => contrib ≠ au)).map (fun contrib => contrib.username),
          url := get_share_folder_uri na.folder }) := by
  refine ⟨?_, ?_, ?_, ?_, ?_⟩
  · intro ns u res h
    simp only [serialize_settings] at h
    by_cases ha : ns.has_auth = true
    · rw [if_pos ha] at h
      cases hus : ns.user_settings with
      | none => rw [hus] at h; cases h
      | some us =>
        rw [hus] at h
        cases h
        simp [ha]
    · rw [if_neg ha] at h
      cases h
      rw [Bool.not_eq_true] at ha
      simp [ha]
  · intro ns u res h ha hf
    simp only [serialize_settings] at h
    rw [if_pos ha] at h
    cases hus : ns.user_settings with
    | none => rw [hus] at h; cases h
    | some us =>
      rw [hus, hf] at h
      cases h
      rfl
  · intro ns
    unfold serialize_urls
    cases hf : ns.folder with
    | none => simp
    | some f =>
      by_cases h1 : f = emptyPath
      · simp [h1]
      · by_cases h2 : f = slashPath
        · simp [h2]
        · simp [h1, h2]
  · intro ns f hf h1 h2
    unfold serialize_urls
    rw [hf]
    simp [h1, h2]
  · intro au na us h1 h2
    unfold dropbox_get_share_emails
    rw [h1]
    simp [h2]

/-- Sample node settings with auth but no stored folder path. -/
def noFolderNodeSettings : DbxNodeSettings :=
  { sampleNodeSettings with folder := none }

/-- Sample node settings whose linked folder is the root slash. -/
def slashNodeSettings : DbxNodeSettings :=
  { sampleNodeSettings with folder := some slashPath }

/-- The settings dictionary serialize_settings produces for
noFolderNodeSettings and the owner. -/
def noFolderResult : SettingsResult :=
  { nodeHasAuth := true, userIsOwner := true, userHasAuth := true,
    urls := { config := cfgUrl, deauthorize := deauthUrl, auth := authUrl,
              importAuth := importUrl, files := filesUrl,
              folders := foldersUrl, share := none, emails := emailsUrl,
              owner := some (profile_url ownerKey) },
    ownerName := some ownerFullname,
    folder := some { name := none, path := none } }

/-- Witness for C10 at the concrete Dropbox fixtures. -/
theorem C10_settings_serialization_witness :
    noFolderResult.folder.isSome = noFolderNodeSettings.has_auth ∧
    noFolderResult.folder = some { name := none, path := none } ∧
    (serialize_urls slashNodeSettings).share = none ∧
    (serialize_urls sampleNodeSettings).share
        = some (get_share_folder_uri (some researchPath)) ∧
    dropbox_get_share_emails userOwner sampleNodeSettings = Except.ok
      { emails := (sampleNodeSettings.owner.contributors.filter
          (fun contrib => contrib ≠ userOwner)).map (fun contrib => contrib.username),
        url := get_share_folder_uri sampleNodeSettings.folder } := by
  have h := C10_settings_serialization
  refine ⟨?_, ?_, ?_, ?_, ?_⟩
  · exact h.1 noFolderNodeSettings userOwner noFolderResult (by decide)
  · exact h.2.1 noFolderNodeSettings userOwner noFolderResult
      (by decide) (by decide) (by decide)
  · exact (h.2.2.1 slashNodeSettings).mpr (by decide)
  · exact h.2.2.2.1 sampleNodeSettings researchPath
      (by decide) (by decide) (by decide)
  · exact h.2.2.2.2 userOwner sampleNodeSettings sampleUserSettings
      (by decide) (by decide)
